import Mathlib

/-!
Shallow embedding of the aggregation + caching layer of the
`mapa_eleitoral` Django application (`mapa_eleitoral/views.py` and
`mapa_eleitoral/models.py`).

The Record Store (`DadoEleitoral` table) is modelled as a list of rows
carrying exactly the columns the verified functions read
(`ano_eleicao`, `sg_partido`, `nm_urna_candidato`, `nm_bairro`,
`ds_cargo`, `qt_votos`); the remaining columns are never touched by the
code under verification.  The Django cache backend is modelled as an
association list threaded through the functions, and the MD5 digest of
`hashlib` (an external library) is a parameter `md5hex : String → String`
of every definition that hashes, so all theorems hold for the real
digest function.  Database queries are counted explicitly so that the
caching claims can be stated.
-/

/-- `qt_votos` as read back from the store: the column is declared
`DecimalField(decimal_places=0)`, so numeric values are integral, but the
code defends against non-numeric and `None` payloads
(`int(item['qt_votos']) if isinstance(item['qt_votos'], (Decimal, int, float)) else 0`). -/
inductive QtVotos where
  | num (n : Int)
  | text (s : String)
  | null
  deriving DecidableEq, Repr

/-- The coercion applied to every row's `qt_votos` in
`get_complete_candidate_data`: numeric values pass through `int(...)`
(identity on the integral decimals stored), everything else becomes 0. -/
def int_or_zero : QtVotos → Int
  | .num n => n
  | .text _ => 0
  | .null => 0

/-- `true` exactly on the payloads that Python's
`isinstance(x, (Decimal, int, float))` accepts. -/
def is_numeric : QtVotos → Bool
  | .num _ => true
  | _ => false

/-- One row of the `eleicoes_rio` table, restricted to the columns read
by the views under verification. -/
structure DadoEleitoral where
  ano_eleicao : String
  sg_partido : String
  nm_urna_candidato : String
  nm_bairro : String
  ds_cargo : String
  qt_votos : QtVotos
  deriving DecidableEq, Repr

/-- A Python argument as passed to `generate_safe_cache_key`: either a
string or `None`.  `str(None)` is the literal `"None"`. -/
inductive PyArg where
  | s (v : String)
  | pynone
  deriving DecidableEq, Repr

/-- Python's `str` applied to a cache-key argument. -/
def py_str : PyArg → String
  | .s v => v
  | .pynone => "None"

/-- `generate_safe_cache_key(prefix, *args)`:
`raw = "_".join(str(arg) for arg in args)` followed by
`f"{prefix}_{md5(raw)}"`.  `md5hex` stands for
`hashlib.md5(...).hexdigest()`. -/
def generate_safe_cache_key (md5hex : String → String) (pfx : String)
    (args : List PyArg) : String :=
  let raw := String.intercalate "_" (args.map py_str)
  pfx ++ "_" ++ md5hex raw

/-- Lexicographic comparison of character lists, the order used by the
database's `ORDER BY` on text columns and by Python's `sorted` on
strings (modelled structurally so that it evaluates). -/
def chars_le : List Char → List Char → Bool
  | [], _ => true
  | _ :: _, [] => false
  | a :: as, b :: bs => if a = b then chars_le as bs else decide (a < b)

/-- Lexicographic `≤` on strings. -/
def str_le (a b : String) : Bool := chars_le a.data b.data

/-- `str_le` as a relation, for sorting ascending. -/
def sle (a b : String) : Prop := str_le a b = true

instance : DecidableRel sle :=
  fun a b => inferInstanceAs (Decidable (str_le a b = true))

/-- Flipped `str_le`, for sorting descending. -/
def sge (a b : String) : Prop := str_le b a = true

instance : DecidableRel sge :=
  fun a b => inferInstanceAs (Decidable (str_le b a = true))

/-- The WHERE clause of the single query in `get_complete_candidate_data`:
`filter(ano_eleicao=ano, sg_partido=partido, nm_urna_candidato=candidato)`. -/
def filter_triple (db : List DadoEleitoral) (candidato partido ano : String) :
    List DadoEleitoral :=
  db.filter fun r =>
    r.ano_eleicao == ano && r.sg_partido == partido && r.nm_urna_candidato == candidato

/-- The row ordering `order_by('nm_bairro')` on the filtered rows. -/
def bairro_le (x y : DadoEleitoral) : Prop := sle x.nm_bairro y.nm_bairro

instance : DecidableRel bairro_le :=
  fun x y => inferInstanceAs (Decidable (str_le x.nm_bairro y.nm_bairro = true))

/-- `dados`: the result set of the query in `get_complete_candidate_data`
(filtered to the exact triple, ordered by neighborhood name). -/
def dados (db : List DadoEleitoral) (candidato partido ano : String) :
    List DadoEleitoral :=
  List.insertionSort bairro_le (filter_triple db candidato partido ano)

/-- One step of the Python dict update
`votos_dict[bairro] += votos` / `votos_dict[bairro] = votos`,
on a dict modelled as an association list. -/
def add_vote : List (String × Int) → String → Int → List (String × Int)
  | [], b, v => [(b, v)]
  | (b', v') :: rest, b, v =>
      if b' = b then (b', v' + v) :: rest else (b', v') :: add_vote rest b v

/-- Python dict lookup (`votos_dict.get(bairro)`); `none` models absence. -/
def alist_lookup : List (String × Int) → String → Option Int
  | [], _ => none
  | (k, v) :: rest, b => if k = b then some v else alist_lookup rest b

/-- One iteration of the `for item in dados` loop of
`get_complete_candidate_data`: the row's coerced vote count is added to
its neighborhood's dict entry and to the running total. -/
def processa_step (acc : List (String × Int) × Int) (item : DadoEleitoral) :
    List (String × Int) × Int :=
  let votos := int_or_zero item.qt_votos
  (add_vote acc.1 item.nm_bairro votos, acc.2 + votos)

/-- The accumulation loop of `get_complete_candidate_data`, starting from
`votos_dict = {}` and `total_votos = 0`. -/
def processa (ds : List DadoEleitoral) : List (String × Int) × Int :=
  ds.foldl processa_step ([], 0)

/-- The `candidato_info` dict built by `get_complete_candidate_data`. -/
structure CandidatoInfo where
  nome : String
  cargo : String
  ano : String
  votos_total : Int
  deriving DecidableEq, Repr

/-- The `cached_data` dict returned by `get_complete_candidate_data`. -/
structure CompleteData where
  votos_dict : List (String × Int)
  total_votos : Int
  candidato_info : CandidatoInfo
  deriving DecidableEq, Repr

/-- `cache.get` on the modelled cache (entries are live: the model works
inside one TTL window, where no stored entry has expired). -/
def cache_lookup : List (String × CompleteData) → String → Option CompleteData
  | [], _ => none
  | (k, v) :: rest, key => if k = key then some v else cache_lookup rest key

/-- The cache key `generate_safe_cache_key('complete_data', candidato, partido, ano)`. -/
def complete_data_key (md5hex : String → String) (candidato partido ano : String) :
    String :=
  generate_safe_cache_key md5hex "complete_data" [.s candidato, .s partido, .s ano]

/-- `get_complete_candidate_data(candidato, partido, ano)` with the cache
threaded explicitly.  Returns the value the Python function returns, the
cache state after the call, and the number of Record Store queries the
call issued (0 on a cache hit, 1 otherwise).  Mirrors the source: on a
hit the stored value is returned unchanged; on a miss the triple is
queried, an empty result set returns `None` **before** any cache write,
and a non-empty one is aggregated, cached and returned. -/
def get_complete_candidate_data (md5hex : String → String)
    (db : List DadoEleitoral) (cache : List (String × CompleteData))
    (candidato partido ano : String) :
    Option CompleteData × List (String × CompleteData) × Nat :=
  let cache_key := complete_data_key md5hex candidato partido ano
  match cache_lookup cache cache_key with
  | some cached_data => (some cached_data, cache, 0)
  | none =>
    match dados db candidato partido ano with
    | [] => (none, cache, 1)
    | d0 :: _ =>
      let vd_tv := processa (dados db candidato partido ano)
      let candidato_info : CandidatoInfo :=
        { nome := d0.nm_urna_candidato
          cargo := d0.ds_cargo
          ano := ano
          votos_total := vd_tv.2 }
      let cached_data : CompleteData :=
        { votos_dict := vd_tv.1
          total_votos := vd_tv.2
          candidato_info := candidato_info }
      (some cached_data, (cache_key, cached_data) :: cache, 1)

/-- Sum of the coerced vote counts of a list of rows. -/
def soma_votos (ds : List DadoEleitoral) : Int :=
  (ds.map (fun r => int_or_zero r.qt_votos)).sum

/-- Sum of all values of a vote dict (`sum(votos_dict.values())`). -/
def dict_values_sum (d : List (String × Int)) : Int :=
  (d.map (·.2)).sum

/-- `get_cached_anos`: distinct `ano_eleicao` values, descending. -/
def get_anos (db : List DadoEleitoral) : List String :=
  List.insertionSort sge ((db.map (·.ano_eleicao)).dedup)

/-- `get_cached_partidos(ano)`: distinct `sg_partido` values, ascending,
filtered to `ano` when `ano` is truthy (non-empty). -/
def get_partidos (db : List DadoEleitoral) (ano : String) : List String :=
  let q := if ano ≠ "" then db.filter (fun r => r.ano_eleicao == ano) else db
  List.insertionSort sle ((q.map (·.sg_partido)).dedup)

/-- `get_cached_candidatos(partido, ano)`: distinct `nm_urna_candidato`
values, ascending, filtered by each truthy argument. -/
def get_candidatos (db : List DadoEleitoral) (partido ano : String) : List String :=
  let q1 := if ano ≠ "" then db.filter (fun r => r.ano_eleicao == ano) else db
  let q2 := if partido ≠ "" then q1.filter (fun r => r.sg_partido == partido) else q1
  List.insertionSort sle ((q2.map (·.nm_urna_candidato)).dedup)

/-- The year resolution of `home_view`:
`request.GET.get('ano', str(anos[0]) if anos else '')`.  A present query
parameter (`some v`) is used as is; only an absent one falls back to the
head of the descending year list. -/
def resolve_ano (anos : List String) (ano_param : Option String) : String :=
  match ano_param with
  | some v => v
  | none => match anos with
    | [] => ""
    | a :: _ => a

/-- The party resolution of `home_view`:
`request.GET.get('partido', 'PRB' if 'PRB' in partidos else (partidos[0] if partidos else ''))`. -/
def resolve_partido (partidos : List String) (partido_param : Option String) : String :=
  match partido_param with
  | some v => v
  | none =>
    if "PRB" ∈ partidos then "PRB"
    else match partidos with
      | [] => ""
      | p :: _ => p

/-- The candidate resolution of `home_view`: the raw parameter
(defaulting to `''`), replaced by the fallback chain
(`'CRIVELLA'` if present, else first candidate, else `''`) whenever it is
empty or not in the candidate list. -/
def resolve_candidato (candidatos : List String) (candidato_param : Option String) :
    String :=
  let selected := candidato_param.getD ""
  if selected = "" ∨ selected ∉ candidatos then
    if "CRIVELLA" ∈ candidatos then "CRIVELLA"
    else match candidatos with
      | [] => ""
      | c :: _ => c
  else selected

/-- The outcome of `home_view`'s selection-resolution chain. -/
structure Resolved where
  selected_ano : String
  selected_partido : String
  selected_candidato : String
  map_rendered : Bool
  deriving DecidableEq, Repr

/-- The selection-resolution chain of `home_view`, over an explicit
Record Store and the three optional GET parameters; `map_rendered` is
true exactly when the view reaches `generate_static_map_html`
(candidate and year truthy, aggregation non-`None`, `votos_dict` truthy). -/
def home_view_resolve (md5hex : String → String) (db : List DadoEleitoral)
    (ano_param partido_param candidato_param : Option String) : Resolved :=
  let anos := get_anos db
  let selected_ano := resolve_ano anos ano_param
  let partidos := get_partidos db selected_ano
  let selected_partido := resolve_partido partidos partido_param
  let candidatos := get_candidatos db selected_partido selected_ano
  let selected_candidato := resolve_candidato candidatos candidato_param
  let map_rendered :=
    if selected_candidato ≠ "" ∧ selected_ano ≠ "" then
      match (get_complete_candidate_data md5hex db []
          selected_candidato selected_partido selected_ano).1 with
      | some cd => !cd.votos_dict.isEmpty
      | none => false
    else false
  { selected_ano := selected_ano
    selected_partido := selected_partido
    selected_candidato := selected_candidato
    map_rendered := map_rendered }

/-- Python division, which raises `ZeroDivisionError` on a zero divisor;
the embedding makes the possible fault explicit. -/
def pydiv (a b : ℚ) : Except String ℚ :=
  if b = 0 then .error "ZeroDivisionError" else .ok (a / b)

/-- The tooltip percentage of `generate_optimized_map_html` /
`generate_static_map_html`:
`(votos / total_votos * 100) if total_votos > 0 else 0`. -/
def porcentagem (votos total : Int) : Except String ℚ :=
  if 0 < total then (pydiv (votos : ℚ) (total : ℚ)).map (· * 100)
  else .ok 0

/-- The tooltip loop over the GeoJSON features: each feature's
neighborhood name is looked up in `votos_dict` (default 0) and its
percentage of the total computed; a `ZeroDivisionError` anywhere aborts
the whole rendering. -/
def tooltip_data (votos_dict : List (String × Int)) (total : Int) :
    List String → Except String (List (String × Int × ℚ))
  | [] => .ok []
  | nome :: rest => do
    let votos := (alist_lookup votos_dict nome).getD 0
    let pct ← porcentagem votos total
    let tail ← tooltip_data votos_dict total rest
    pure ((nome, votos, pct) :: tail)

/-- Python's single-quote character, used by `str` on strings. -/
def py_quote : String := (Char.ofNat 39).toString

/-- `str` of one `(bairro, votos)` tuple. -/
def py_str_pair (p : String × Int) : String :=
  "(" ++ py_quote ++ p.1 ++ py_quote ++ ", " ++ toString p.2 ++ ")"

/-- The key order used by `sorted(votos_dict.items())` (keys are unique
in a dict, so comparison never reaches the second component). -/
def pair_key_le (x y : String × Int) : Prop := sle x.1 y.1

instance : DecidableRel pair_key_le :=
  fun x y => inferInstanceAs (Decidable (str_le x.1 y.1 = true))

/-- `str(sorted(votos_dict.items()))`: dict items sorted by key and
serialized as a Python list of tuples. -/
def py_str_sorted_items (vd : List (String × Int)) : String :=
  "[" ++
    String.intercalate ", " ((List.insertionSort pair_key_le vd).map py_str_pair)
    ++ "]"

/-- `str(candidato_info)`: the Python dict literal with its four keys in
insertion order. -/
def py_str_info (i : CandidatoInfo) : String :=
  "\x7b" ++ py_quote ++ "nome" ++ py_quote ++ ": " ++ py_quote ++ i.nome ++ py_quote ++
    ", " ++ py_quote ++ "cargo" ++ py_quote ++ ": " ++ py_quote ++ i.cargo ++ py_quote ++
    ", " ++ py_quote ++ "ano" ++ py_quote ++ ": " ++ py_quote ++ i.ano ++ py_quote ++
    ", " ++ py_quote ++ "votos_total" ++ py_quote ++ ": " ++ toString i.votos_total ++
    "\x7d"

/-- The content fingerprinted by `generate_static_map_html`:
`f"{str(sorted(votos_dict.items()))}_{total_votos}_{candidato_info}"`. -/
def map_data_key (vd : List (String × Int)) (tv : Int) (info : CandidatoInfo) : String :=
  py_str_sorted_items vd ++ "_" ++ toString tv ++ "_" ++ py_str_info info

/-- The artifact filename `f"{data_hash}.html"`. -/
def map_file_name (md5hex : String → String) (vd : List (String × Int)) (tv : Int)
    (info : CandidatoInfo) : String :=
  md5hex (map_data_key vd tv info) ++ ".html"

/-- The served URL `settings.STATIC_URL + f"maps/{file_name}"` with
`STATIC_URL = '/static/'`. -/
def map_file_url (md5hex : String → String) (vd : List (String × Int)) (tv : Int)
    (info : CandidatoInfo) : String :=
  "/static/" ++ "maps/" ++ map_file_name md5hex vd tv info

/-- `generate_static_map_html(votos_dict, total_votos, candidato_info)`
over an explicit file-system state (the set of files already present in
`static/maps/`): when the fingerprinted filename already exists the
function returns its URL without regenerating; otherwise it renders,
saves the file and returns the URL. -/
def generate_static_map_html (md5hex : String → String) (fs : List String)
    (vd : List (String × Int)) (tv : Int) (info : CandidatoInfo) :
    String × List String :=
  let file_name := map_file_name md5hex vd tv info
  let file_url := map_file_url md5hex vd tv info
  if file_name ∈ fs then (file_url, fs)
  else (file_url, file_name :: fs)

/-! ## Example dataset

The three records of the spec's end-to-end scenario:
(2024, PSD, "EDUARDO PAES", "Centro", 100), (2024, PSD, "EDUARDO PAES",
"Centro", 50), (2024, PSD, "EDUARDO PAES", "Zona Sul", 30). -/

/-- One row of the scenario dataset. -/
def exemplo_row (b : String) (v : Int) : DadoEleitoral :=
  { ano_eleicao := "2024"
    sg_partido := "PSD"
    nm_urna_candidato := "EDUARDO PAES"
    nm_bairro := b
    ds_cargo := "PREFEITO"
    qt_votos := .num v }

/-- The scenario dataset. -/
def exemplo_db : List DadoEleitoral :=
  [exemplo_row "Centro" 100, exemplo_row "Centro" 50, exemplo_row "Zona Sul" 30]

/-- A generic single row, for small concrete datasets. -/
def linha (c p a b : String) (v : Int) : DadoEleitoral :=
  { ano_eleicao := a
    sg_partido := p
    nm_urna_candidato := c
    nm_bairro := b
    ds_cargo := "VEREADOR"
    qt_votos := .num v }

/-! ## Order lemmas for the lexicographic string comparison -/

theorem chars_le_refl : ∀ as : List Char, chars_le as as = true
  | [] => rfl
  | a :: as => by simp [chars_le, chars_le_refl as]

theorem chars_le_total : ∀ as bs : List Char,
    chars_le as bs = true ∨ chars_le bs as = true
  | [], _ => Or.inl rfl
  | _ :: _, [] => Or.inr rfl
  | a :: as, b :: bs => by
    by_cases hab : a = b
    · subst hab
      simpa [chars_le] using chars_le_total as bs
    · rcases lt_or_gt_of_ne hab with h | h
      · exact Or.inl (by simp [chars_le, hab, h])
      · exact Or.inr (by simp [chars_le, Ne.symm hab, h])

theorem chars_le_trans : ∀ as bs cs : List Char,
    chars_le as bs = true → chars_le bs cs = true → chars_le as cs = true
  | [], _, _, _, _ => rfl
  | _ :: _, [], _, h1, _ => by simp [chars_le] at h1
  | _ :: _, _ :: _, [], _, h2 => by simp [chars_le] at h2
  | a :: as, b :: bs, c :: cs, h1, h2 => by
    by_cases hab : a = b <;> by_cases hbc : b = c
    · subst hab; subst hbc
      simp only [chars_le, if_pos rfl] at h1 h2 ⊢
      exact chars_le_trans as bs cs h1 h2
    · subst hab
      simp only [chars_le, if_pos rfl, if_neg hbc] at h1 h2 ⊢
      exact h2
    · subst hbc
      simp only [chars_le, if_pos rfl, if_neg hab] at h1 h2 ⊢
      exact h1
    · simp only [chars_le, if_neg hab, if_neg hbc, decide_eq_true_eq] at h1 h2
      have hac : a < c := lt_trans h1 h2
      simp [chars_le, ne_of_lt hac, hac]

instance : IsTotal String sle := ⟨fun a b => chars_le_total a.data b.data⟩

instance : IsTrans String sle :=
  ⟨fun a b c hab hbc => chars_le_trans a.data b.data c.data hab hbc⟩

instance : IsTotal String sge := ⟨fun a b => chars_le_total b.data a.data⟩

instance : IsTrans String sge :=
  ⟨fun a b c hab hbc => chars_le_trans c.data b.data a.data hbc hab⟩

theorem sle_refl (a : String) : sle a a := chars_le_refl a.data

/-! ## Aggregation-loop lemmas -/

theorem soma_votos_nil : soma_votos [] = 0 := rfl

theorem soma_votos_cons (r : DadoEleitoral) (l : List DadoEleitoral) :
    soma_votos (r :: l) = int_or_zero r.qt_votos + soma_votos l := by
  simp [soma_votos]

theorem alist_lookup_add_vote (d : List (String × Int)) (b : String) (v : Int)
    (q : String) :
    alist_lookup (add_vote d b v) q =
      if q = b then some ((alist_lookup d b).getD 0 + v) else alist_lookup d q := by
  induction d with
  | nil =>
    by_cases h : q = b
    · subst h; simp [add_vote, alist_lookup]
    · have h2 : ¬b = q := fun hc => h hc.symm
      simp [add_vote, alist_lookup, h, h2]
  | cons kv rest ih =>
    obtain ⟨k, w⟩ := kv
    by_cases hkb : k = b
    · subst hkb
      by_cases hqk : q = k
      · subst hqk
        simp [add_vote, alist_lookup]
      · have h2 : ¬k = q := fun hc => hqk hc.symm
        simp [add_vote, alist_lookup, hqk, h2]
    · by_cases hkq : k = q
      · subst hkq
        have hqb : ¬(k = b) := hkb
        simp [add_vote, alist_lookup, hkb, hqb]
      · simp [add_vote, alist_lookup, hkb, hkq, ih]

theorem dict_values_sum_nil : dict_values_sum [] = 0 := rfl

theorem dict_values_sum_add_vote (d : List (String × Int)) (b : String) (v : Int) :
    dict_values_sum (add_vote d b v) = dict_values_sum d + v := by
  induction d with
  | nil => simp [add_vote, dict_values_sum]
  | cons kv rest ih =>
    obtain ⟨k, w⟩ := kv
    by_cases hkb : k = b
    · simp [add_vote, hkb, dict_values_sum]
      ring
    · simp only [add_vote, if_neg hkb, dict_values_sum, List.map_cons, List.sum_cons] at ih ⊢
      omega

theorem foldl_processa_total (ds : List DadoEleitoral) :
    ∀ acc : List (String × Int) × Int,
      (ds.foldl processa_step acc).2 = acc.2 + soma_votos ds := by
  induction ds with
  | nil => intro acc; simp [soma_votos]
  | cons r rest ih =>
    intro acc
    rw [List.foldl_cons, ih, soma_votos_cons]
    simp [processa_step]
    ring

theorem foldl_processa_values_sum (ds : List DadoEleitoral) :
    ∀ acc : List (String × Int) × Int,
      dict_values_sum (ds.foldl processa_step acc).1 =
        dict_values_sum acc.1 + soma_votos ds := by
  induction ds with
  | nil => intro acc; simp [soma_votos]
  | cons r rest ih =>
    intro acc
    rw [List.foldl_cons, ih, soma_votos_cons]
    simp [processa_step, dict_values_sum_add_vote]
    ring

theorem foldl_processa_lookup (ds : List DadoEleitoral) :
    ∀ (acc : List (String × Int) × Int) (q : String),
      alist_lookup (ds.foldl processa_step acc).1 q =
        if ds.any (fun r => r.nm_bairro == q) then
          some ((alist_lookup acc.1 q).getD 0 +
            soma_votos (ds.filter (fun r => r.nm_bairro == q)))
        else alist_lookup acc.1 q := by
  induction ds with
  | nil => intro acc q; simp
  | cons r rest ih =>
    intro acc q
    rw [List.foldl_cons, ih]
    by_cases h : r.nm_bairro = q
    · subst h
      have hstep : alist_lookup (processa_step acc r).1 r.nm_bairro =
          some ((alist_lookup acc.1 r.nm_bairro).getD 0 + int_or_zero r.qt_votos) := by
        simp [processa_step, alist_lookup_add_vote]
      rw [hstep]
      have hany : ((r :: rest).any fun x => x.nm_bairro == r.nm_bairro) = true := by
        simp [List.any_cons]
      have hfc : List.filter (fun x => x.nm_bairro == r.nm_bairro) (r :: rest) =
          r :: List.filter (fun x => x.nm_bairro == r.nm_bairro) rest := by
        simp [List.filter_cons]
      rw [hany, if_pos rfl, hfc, soma_votos_cons]
      by_cases hrest : (rest.any fun x => x.nm_bairro == r.nm_bairro) = true
      · rw [if_pos hrest]
        simp only [Option.getD_some]
        congr 1
        ring
      · have hfil : rest.filter (fun x => x.nm_bairro == r.nm_bairro) = [] := by
          rw [List.filter_eq_nil_iff]
          intro x hx hbx
          exact hrest (List.any_eq_true.mpr ⟨x, hx, hbx⟩)
        rw [if_neg hrest, hfil, soma_votos_nil]
        simp
    · have hq : ¬(q = r.nm_bairro) := fun hc => h hc.symm
      have hb : (r.nm_bairro == q) = false := by simp [h]
      have hstep : alist_lookup (processa_step acc r).1 q = alist_lookup acc.1 q := by
        simp [processa_step, alist_lookup_add_vote, hq]
      rw [hstep]
      have hany : ((r :: rest).any fun x => x.nm_bairro == q) =
          (rest.any fun x => x.nm_bairro == q) := by
        simp [List.any_cons, hb]
      have hfc : List.filter (fun x => x.nm_bairro == q) (r :: rest) =
          List.filter (fun x => x.nm_bairro == q) rest := by
        simp [List.filter_cons, hb]
      rw [hany, hfc]

/-! ## Bridging the ordered query result back to the raw filtered rows -/

theorem dados_perm (db : List DadoEleitoral) (c p a : String) :
    (dados db c p a).Perm (filter_triple db c p a) :=
  List.perm_insertionSort bairro_le (filter_triple db c p a)

theorem soma_votos_of_perm {l1 l2 : List DadoEleitoral} (h : l1.Perm l2) :
    soma_votos l1 = soma_votos l2 := by
  unfold soma_votos
  exact (h.map _).sum_eq

theorem any_of_perm {l1 l2 : List DadoEleitoral} (h : l1.Perm l2)
    (g : DadoEleitoral → Bool) : l1.any g = l2.any g := by
  rw [Bool.eq_iff_iff]
  simp only [List.any_eq_true]
  constructor
  · rintro ⟨x, hx, hg⟩; exact ⟨x, h.mem_iff.mp hx, hg⟩
  · rintro ⟨x, hx, hg⟩; exact ⟨x, h.mem_iff.mpr hx, hg⟩

theorem dados_eq_nil_iff (db : List DadoEleitoral) (c p a : String) :
    dados db c p a = [] ↔ filter_triple db c p a = [] := by
  rw [← List.length_eq_zero, ← List.length_eq_zero, (dados_perm db c p a).length_eq]

/-- Per-neighborhood content of the vote dict built by
`get_complete_candidate_data`, in terms of the raw matching rows. -/
theorem processa_lookup (db : List DadoEleitoral) (c p a q : String) :
    alist_lookup (processa (dados db c p a)).1 q =
      if (filter_triple db c p a).any (fun r => r.nm_bairro == q) then
        some (soma_votos ((filter_triple db c p a).filter fun r => r.nm_bairro == q))
      else none := by
  rw [processa, foldl_processa_lookup,
    any_of_perm (dados_perm db c p a) (fun r => r.nm_bairro == q),
    soma_votos_of_perm ((dados_perm db c p a).filter fun r => r.nm_bairro == q)]
  by_cases h : (filter_triple db c p a).any (fun r => r.nm_bairro == q) = true
  · rw [if_pos h, if_pos h]
    simp [alist_lookup]
  · rw [if_neg h, if_neg h]
    rfl

/-- The total accumulated by the loop equals the sum of the coerced vote
counts of all matching rows. -/
theorem processa_total (db : List DadoEleitoral) (c p a : String) :
    (processa (dados db c p a)).2 = soma_votos (filter_triple db c p a) := by
  rw [processa, foldl_processa_total, soma_votos_of_perm (dados_perm db c p a)]
  simp

/-- The values of the vote dict sum to the same total. -/
theorem processa_values_sum (db : List DadoEleitoral) (c p a : String) :
    dict_values_sum (processa (dados db c p a)).1 =
      soma_votos (filter_triple db c p a) := by
  rw [processa, foldl_processa_values_sum, soma_votos_of_perm (dados_perm db c p a)]
  simp [dict_values_sum]

/-! ## Cache-path lemmas for `get_complete_candidate_data` -/

theorem cache_lookup_cons_self (cache : List (String × CompleteData)) (k : String)
    (v : CompleteData) : cache_lookup ((k, v) :: cache) k = some v := by
  simp [cache_lookup]

/-- On a cache hit, the call returns the stored value, leaves the cache
unchanged and issues no query. -/
theorem get_complete_candidate_data_hit (md5hex : String → String)
    (db : List DadoEleitoral) (cache : List (String × CompleteData))
    (c p a : String) (cd : CompleteData)
    (h : cache_lookup cache (complete_data_key md5hex c p a) = some cd) :
    get_complete_candidate_data md5hex db cache c p a = (some cd, cache, 0) := by
  rw [get_complete_candidate_data]
  simp only [h]

/-- On a cache miss with no matching rows, the call returns `none`,
leaves the cache unchanged and issues one query. -/
theorem get_complete_candidate_data_empty (md5hex : String → String)
    (db : List DadoEleitoral) (cache : List (String × CompleteData))
    (c p a : String)
    (hmiss : cache_lookup cache (complete_data_key md5hex c p a) = none)
    (hnil : filter_triple db c p a = []) :
    get_complete_candidate_data md5hex db cache c p a = (none, cache, 1) := by
  rw [get_complete_candidate_data]
  simp only [hmiss]
  rw [(dados_eq_nil_iff db c p a).mpr hnil]

/-- On a cache miss with at least one matching row, the call aggregates,
returns the aggregate, pushes it on the cache under the key, and issues
one query. -/
theorem get_complete_candidate_data_miss (md5hex : String → String)
    (db : List DadoEleitoral) (cache : List (String × CompleteData))
    (c p a : String) (d0 : DadoEleitoral) (tl : List DadoEleitoral)
    (hmiss : cache_lookup cache (complete_data_key md5hex c p a) = none)
    (hd : dados db c p a = d0 :: tl) :
    get_complete_candidate_data md5hex db cache c p a =
      (some { votos_dict := (processa (dados db c p a)).1
              total_votos := (processa (dados db c p a)).2
              candidato_info :=
                { nome := d0.nm_urna_candidato
                  cargo := d0.ds_cargo
                  ano := a
                  votos_total := (processa (dados db c p a)).2 } },
       (complete_data_key md5hex c p a,
        { votos_dict := (processa (dados db c p a)).1
          total_votos := (processa (dados db c p a)).2
          candidato_info :=
            { nome := d0.nm_urna_candidato
              cargo := d0.ds_cargo
              ano := a
              votos_total := (processa (dados db c p a)).2 } }) :: cache,
       1) := by
  rw [get_complete_candidate_data]
  simp only [hmiss, hd]

/-! ## Percentage lemma -/

theorem porcentagem_ok (v t : Int) :
    porcentagem v t = .ok (if 0 < t then (v : ℚ) * 100 / t else 0) := by
  unfold porcentagem pydiv
  by_cases h : 0 < t
  · have ht : ((t : ℚ)) ≠ 0 := by
      have : t ≠ 0 := by omega
      exact_mod_cast this
    rw [if_pos h, if_pos h, if_neg ht]
    simp only [Except.map]
    rw [div_mul_eq_mul_div]
  · rw [if_neg h, if_neg h]

/-! ## Year-list lemmas -/

theorem get_anos_sorted (db : List DadoEleitoral) : List.Sorted sge (get_anos db) :=
  List.sorted_insertionSort sge _

theorem get_anos_eq_nil_iff (db : List DadoEleitoral) : get_anos db = [] ↔ db = [] := by
  unfold get_anos
  constructor
  · intro h
    have hl := congrArg List.length h
    rw [List.length_insertionSort] at hl
    have hd : (db.map (·.ano_eleicao)).dedup = [] := List.length_eq_zero.mp hl
    rw [List.dedup_eq_nil] at hd
    exact List.map_eq_nil_iff.mp hd
  · intro h; subst h; rfl

theorem get_anos_head_max (db : List DadoEleitoral) (a : String) (t : List String)
    (h : get_anos db = a :: t) : ∀ y ∈ get_anos db, sle y a := by
  intro y hy
  rw [h] at hy
  have hs := get_anos_sorted db
  rw [h] at hs
  rcases List.mem_cons.mp hy with rfl | hyt
  · exact sle_refl y
  · exact (List.sorted_cons.mp hs).1 y hyt

/-! ## Numeric-coercion lemmas -/

theorem int_or_zero_of_not_numeric (q : QtVotos) (h : is_numeric q = false) :
    int_or_zero q = 0 := by
  cases q with
  | num n => simp [is_numeric] at h
  | text s => rfl
  | null => rfl

theorem soma_votos_filter_numeric (ds : List DadoEleitoral) :
    soma_votos ds = soma_votos (ds.filter fun r => is_numeric r.qt_votos) := by
  induction ds with
  | nil => rfl
  | cons r rest ih =>
    by_cases h : is_numeric r.qt_votos = true
    · simp only [List.filter_cons, h, if_true, soma_votos_cons, ih]
    · have hf : is_numeric r.qt_votos = false := by
        cases hq : is_numeric r.qt_votos
        · rfl
        · exact absurd hq h
      have h0 : int_or_zero r.qt_votos = 0 := int_or_zero_of_not_numeric _ hf
      simp only [List.filter_cons, hf, Bool.false_eq_true, if_false, soma_votos_cons,
        h0, zero_add, ih]

/-! ## Empty-store resolution lemmas -/

theorem get_candidatos_nil (p a : String) : get_candidatos [] p a = [] := by
  unfold get_candidatos
  by_cases h1 : a ≠ "" <;> by_cases h2 : p ≠ "" <;> simp [h1, h2]

theorem resolve_candidato_nil (cp : Option String) : resolve_candidato [] cp = "" := by
  unfold resolve_candidato
  simp

/-! ## Claim theorems -/

/-- C1: the neighborhood vote mapping returned by
`get_complete_candidate_data(Y, P, C)` assigns to each neighborhood the
sum of (coerced) `qt_votos` over all records matching the exact triple in
that neighborhood; the sum of all values of the mapping — and the
reported `total_votos` — equals the sum of vote counts across all
matching raw records; and on the three-record scenario dataset it
returns `{"Centro": 150, "Zona Sul": 30}` with total 180. -/
theorem aggregate_votes_correct (md5hex : String → String)
    (db : List DadoEleitoral) (c p a q : String) (cd : CompleteData)
    (hres : (get_complete_candidate_data md5hex db [] c p a).1 = some cd) :
    (alist_lookup cd.votos_dict q =
      if (filter_triple db c p a).any (fun r => r.nm_bairro == q) then
        some (soma_votos ((filter_triple db c p a).filter fun r => r.nm_bairro == q))
      else none)
    ∧ dict_values_sum cd.votos_dict = soma_votos (filter_triple db c p a)
    ∧ cd.total_votos = soma_votos (filter_triple db c p a)
    ∧ (get_complete_candidate_data (fun s => s) exemplo_db []
        "EDUARDO PAES" "PSD" "2024").1 =
      some { votos_dict := [("Centro", 150), ("Zona Sul", 30)]
             total_votos := 180
             candidato_info := { nome := "EDUARDO PAES", cargo := "PREFEITO",
                                 ano := "2024", votos_total := 180 } } := by
  have hmiss : cache_lookup [] (complete_data_key md5hex c p a) = none := rfl
  cases hdd : dados db c p a with
  | nil =>
    rw [get_complete_candidate_data_empty md5hex db [] c p a hmiss
      ((dados_eq_nil_iff db c p a).mp hdd)] at hres
    exact absurd hres (by simp)
  | cons d0 tl =>
    rw [get_complete_candidate_data_miss md5hex db [] c p a d0 tl hmiss hdd] at hres
    have hcd := (Option.some_injective _ hres).symm
    subst hcd
    refine ⟨?_, ?_, ?_, by decide⟩
    · exact processa_lookup db c p a q
    · exact processa_values_sum db c p a
    · exact processa_total db c p a

/-- Witness for C1 at the scenario dataset and neighborhood "Centro". -/
theorem aggregate_votes_correct_witness :
    alist_lookup
        [(("Centro" : String), (150 : Int)), ("Zona Sul", 30)] "Centro" =
      (if (filter_triple exemplo_db "EDUARDO PAES" "PSD" "2024").any
          (fun r => r.nm_bairro == "Centro") then
        some (soma_votos ((filter_triple exemplo_db "EDUARDO PAES" "PSD" "2024").filter
          fun r => r.nm_bairro == "Centro"))
      else none) := by
  have h := aggregate_votes_correct (fun s => s) exemplo_db
    "EDUARDO PAES" "PSD" "2024" "Centro"
    { votos_dict := [("Centro", 150), ("Zona Sul", 30)]
      total_votos := 180
      candidato_info := { nome := "EDUARDO PAES", cargo := "PREFEITO",
                          ano := "2024", votos_total := 180 } }
    (by decide)
  exact h.1

/-- C2: when the triple matches zero records (and the result is not
already cached) `get_complete_candidate_data` returns `None`; the
function is total, so no exception is raised. -/
theorem aggregate_votes_no_match_none (md5hex : String → String)
    (db : List DadoEleitoral) (cache : List (String × CompleteData))
    (c p a : String)
    (hmiss : cache_lookup cache (complete_data_key md5hex c p a) = none)
    (hnil : filter_triple db c p a = []) :
    (get_complete_candidate_data md5hex db cache c p a).1 = none := by
  rw [get_complete_candidate_data_empty md5hex db cache c p a hmiss hnil]

/-- Witness for C2: the empty store with a fresh cache. -/
theorem aggregate_votes_no_match_none_witness :
    (get_complete_candidate_data (fun s => s) [] [] "ALICE" "XYZ" "2020").1 = none :=
  aggregate_votes_no_match_none (fun s => s) [] [] "ALICE" "XYZ" "2020" rfl rfl

/-- C10: when the triple matches zero records (and no entry for the key
is cached), the call returns `None` with the cache unchanged and one
query issued — and because nothing was memoized, an immediately repeated
identical call again returns `None`, leaves the cache unchanged and
issues another query. -/
theorem aggregate_votes_no_match_not_memoized (md5hex : String → String)
    (db : List DadoEleitoral) (cache : List (String × CompleteData))
    (c p a : String)
    (hmiss : cache_lookup cache (complete_data_key md5hex c p a) = none)
    (hnil : filter_triple db c p a = []) :
    get_complete_candidate_data md5hex db cache c p a = (none, cache, 1)
    ∧ get_complete_candidate_data md5hex db
        (get_complete_candidate_data md5hex db cache c p a).2.1 c p a =
      (none, cache, 1) := by
  have h1 := get_complete_candidate_data_empty md5hex db cache c p a hmiss hnil
  refine ⟨h1, ?_⟩
  rw [h1]
  exact h1

/-- Witness for C10 on a store whose only row does not match the triple. -/
theorem aggregate_votes_no_match_not_memoized_witness :
    get_complete_candidate_data (fun s => s) [linha "BOB" "QQQ" "2016" "Irajá" 4] []
        "CAROL" "QQQ" "2016" =
      (none, [], 1)
    ∧ get_complete_candidate_data (fun s => s) [linha "BOB" "QQQ" "2016" "Irajá" 4]
        (get_complete_candidate_data (fun s => s) [linha "BOB" "QQQ" "2016" "Irajá" 4] []
          "CAROL" "QQQ" "2016").2.1 "CAROL" "QQQ" "2016" =
      (none, [], 1) :=
  aggregate_votes_no_match_not_memoized (fun s => s)
    [linha "BOB" "QQQ" "2016" "Irajá" 4] [] "CAROL" "QQQ" "2016" rfl (by decide)

/-- C3 counterexample: on a store where the triple matches no records,
the first call is not memoized (`None` is returned before any cache
write), so an identical second call within the TTL window issues a
second Record Store query — the two calls trigger two queries, not one. -/
theorem cache_idempotence_counterexample :
    (get_complete_candidate_data (fun s => s) [] [] "ALICE" "XYZ" "2020").2.2 = 1
    ∧ (get_complete_candidate_data (fun s => s) []
        (get_complete_candidate_data (fun s => s) [] [] "ALICE" "XYZ" "2020").2.1
        "ALICE" "XYZ" "2020").2.2 = 1 := by
  constructor <;> rfl

/-- C3 (amended): within the TTL window, and **when the first call finds
at least one matching record**, two calls with identical arguments
starting from a cache with no entry for the key return identical results
and trigger exactly one underlying query (1 for the first call, 0 for
the second, which is served from the cache with the cache unchanged).
When no records match, nothing is cached and each call queries again
(see the counterexample). -/
theorem cache_idempotence_amended (md5hex : String → String)
    (db : List DadoEleitoral) (cache : List (String × CompleteData))
    (c p a : String)
    (hmiss : cache_lookup cache (complete_data_key md5hex c p a) = none)
    (hne : filter_triple db c p a ≠ []) :
    (get_complete_candidate_data md5hex db cache c p a).1 =
      (get_complete_candidate_data md5hex db
        (get_complete_candidate_data md5hex db cache c p a).2.1 c p a).1
    ∧ (get_complete_candidate_data md5hex db cache c p a).2.2 = 1
    ∧ (get_complete_candidate_data md5hex db
        (get_complete_candidate_data md5hex db cache c p a).2.1 c p a).2.2 = 0
    ∧ (get_complete_candidate_data md5hex db
        (get_complete_candidate_data md5hex db cache c p a).2.1 c p a).2.1 =
      (get_complete_candidate_data md5hex db cache c p a).2.1 := by
  cases hdd : dados db c p a with
  | nil => exact absurd ((dados_eq_nil_iff db c p a).mp hdd) hne
  | cons d0 tl =>
    have h1 := get_complete_candidate_data_miss md5hex db cache c p a d0 tl hmiss hdd
    have h2 := get_complete_candidate_data_hit md5hex db
      ((complete_data_key md5hex c p a,
        { votos_dict := (processa (dados db c p a)).1
          total_votos := (processa (dados db c p a)).2
          candidato_info :=
            { nome := d0.nm_urna_candidato
              cargo := d0.ds_cargo
              ano := a
              votos_total := (processa (dados db c p a)).2 } }) :: cache)
      c p a
      { votos_dict := (processa (dados db c p a)).1
        total_votos := (processa (dados db c p a)).2
        candidato_info :=
          { nome := d0.nm_urna_candidato
            cargo := d0.ds_cargo
            ano := a
            votos_total := (processa (dados db c p a)).2 } }
      (cache_lookup_cons_self cache (complete_data_key md5hex c p a) _)
    rw [h1]
    dsimp only
    rw [h2]
    exact ⟨rfl, rfl, rfl, rfl⟩

/-- Witness for C3 (amended) on a one-row store that matches the triple. -/
theorem cache_idempotence_amended_witness :
    (get_complete_candidate_data (fun s => s)
        [linha "DAVI" "RRR" "2012" "Tijuca" 7] [] "DAVI" "RRR" "2012").1 =
      (get_complete_candidate_data (fun s => s) [linha "DAVI" "RRR" "2012" "Tijuca" 7]
        (get_complete_candidate_data (fun s => s)
          [linha "DAVI" "RRR" "2012" "Tijuca" 7] [] "DAVI" "RRR" "2012").2.1
        "DAVI" "RRR" "2012").1
    ∧ (get_complete_candidate_data (fun s => s)
        [linha "DAVI" "RRR" "2012" "Tijuca" 7] [] "DAVI" "RRR" "2012").2.2 = 1 := by
  have h := cache_idempotence_amended (fun s => s)
    [linha "DAVI" "RRR" "2012" "Tijuca" 7] [] "DAVI" "RRR" "2012" rfl (by decide)
  exact ⟨h.1, h.2.1⟩

/-- C4 counterexample: on a store whose only year is "2024", supplying
the year "1999" — which is not in `list_years()` — resolves to "1999"
itself, not to the most recent year "2024": the code uses the supplied
value unvalidated (`request.GET.get('ano', default)` only applies the
fallback when the parameter is absent). -/
theorem home_view_ano_counterexample :
    resolve_ano (get_anos exemplo_db) (some "1999") = "1999"
    ∧ "1999" ∉ get_anos exemplo_db
    ∧ get_anos exemplo_db = ["2024"]
    ∧ resolve_ano (get_anos exemplo_db) (some "1999") ≠ "2024" := by
  refine ⟨rfl, by decide, by decide, by decide⟩

/-- C4 (amended): the resolved year equals the user-supplied value
whenever the parameter is present — whether or not it appears in
`list_years()`; only when the parameter is absent does it fall back to
the most recent year in the store (the maximum of `get_anos`), or to the
empty string when the store is empty. -/
theorem home_view_ano_resolution (db : List DadoEleitoral) (v : String) :
    resolve_ano (get_anos db) (some v) = v
    ∧ (db = [] → resolve_ano (get_anos db) none = "")
    ∧ (db ≠ [] →
        resolve_ano (get_anos db) none ∈ get_anos db
        ∧ ∀ y ∈ get_anos db, sle y (resolve_ano (get_anos db) none)) := by
  refine ⟨rfl, ?_, ?_⟩
  · intro h
    subst h
    rfl
  · intro h
    have hne : get_anos db ≠ [] := fun hc => h ((get_anos_eq_nil_iff db).mp hc)
    cases ha : get_anos db with
    | nil => exact absurd ha hne
    | cons a t =>
      have hmax := get_anos_head_max db a t ha
      rw [ha] at hmax
      refine ⟨List.mem_cons_self a t, ?_⟩
      intro y hy
      exact hmax y hy

/-- Witness for C4 (amended) on the scenario dataset. -/
theorem home_view_ano_resolution_witness :
    resolve_ano (get_anos exemplo_db) (some "1998") = "1998"
    ∧ resolve_ano (get_anos exemplo_db) none ∈ get_anos exemplo_db := by
  have h := home_view_ano_resolution exemplo_db "1998"
  exact ⟨h.1, (h.2.2 (by decide)).1⟩

/-- C5 counterexample: on an empty Record Store the claim requires all
three resolved values to be empty for every input, but supplying
`ano=2024` resolves the year to "2024", not to the empty string. -/
theorem home_view_empty_store_counterexample :
    (home_view_resolve (fun s => s) [] (some "2024") none none).selected_ano = "2024"
    ∧ (home_view_resolve (fun s => s) [] (some "2024") none none).selected_ano ≠ "" := by
  refine ⟨by decide, by decide⟩

/-- C5 (amended): the selection-resolution chain is a total function
(every input produces a value or empty for each of year, party and
candidate — established by the definition itself).  On an empty Record
Store the resolved candidate is always empty and no map is rendered, for
every combination of supplied parameters; when no parameters are
supplied at all, all three resolved values are empty. -/
theorem home_view_empty_store_resolution (md5hex : String → String)
    (aP pP cP : Option String) :
    (home_view_resolve md5hex [] aP pP cP).selected_candidato = ""
    ∧ (home_view_resolve md5hex [] aP pP cP).map_rendered = false
    ∧ home_view_resolve md5hex [] none none none =
      { selected_ano := ""
        selected_partido := ""
        selected_candidato := ""
        map_rendered := false } := by
  refine ⟨?_, ?_, ?_⟩
  · rw [home_view_resolve]
    dsimp only
    rw [get_candidatos_nil, resolve_candidato_nil]
  · rw [home_view_resolve]
    dsimp only
    rw [get_candidatos_nil, resolve_candidato_nil]
    simp
  · simp [home_view_resolve, get_candidatos_nil, resolve_candidato_nil, get_anos,
      resolve_ano, get_partidos, resolve_partido]

/-- C6: for every feature in the boundary data, the tooltip percentage is
`votes / total * 100` when the total is positive and `0` when the total
is zero; the computation never reaches Python's division (which the
embedding models as a possible `ZeroDivisionError`) with a zero divisor,
so the whole tooltip loop always succeeds. -/
theorem tooltip_percentage_safe (vd : List (String × Int)) (t : Int)
    (feats : List String) :
    tooltip_data vd t feats = .ok (feats.map fun nome =>
      (nome, (alist_lookup vd nome).getD 0,
        if 0 < t then ((alist_lookup vd nome).getD 0 : ℚ) * 100 / t else 0))
    ∧ ∀ v : Int, porcentagem v 0 = .ok 0 := by
  constructor
  · induction feats with
    | nil => rfl
    | cons nome rest ih =>
      simp only [tooltip_data, porcentagem_ok, ih, List.map_cons]
      rfl
  · intro v
    simp [porcentagem]

/-- C7: vote counts are coerced to integers for aggregation; `None` and
non-numeric `qt_votos` payloads coerce to 0 and therefore contribute
nothing to the total or to any neighborhood's sum (dropping the
non-numeric rows leaves every sum unchanged). -/
theorem vote_coercion_defaults_zero (ds : List DadoEleitoral) (s q : String) :
    int_or_zero .null = 0
    ∧ int_or_zero (.text s) = 0
    ∧ (processa ds).2 = soma_votos ds
    ∧ soma_votos ds = soma_votos (ds.filter fun r => is_numeric r.qt_votos)
    ∧ soma_votos (ds.filter fun r => r.nm_bairro == q) =
        soma_votos ((ds.filter fun r => r.nm_bairro == q).filter
          fun r => is_numeric r.qt_votos) := by
  refine ⟨rfl, rfl, ?_, soma_votos_filter_numeric ds, soma_votos_filter_numeric _⟩
  rw [processa, foldl_processa_total]
  simp

/-- C8: the artifact filename of `generate_static_map_html` is a
deterministic fingerprint of `(votos_dict, total_votos, candidato_info)`:
a second run on identical inputs produces the same URL and leaves the
file system unchanged, and when the fingerprinted file already exists the
function skips regeneration and returns the existing file's URL. -/
theorem static_map_idempotent (md5hex : String → String) (fs : List String)
    (vd : List (String × Int)) (tv : Int) (info : CandidatoInfo) :
    (generate_static_map_html md5hex fs vd tv info).1 = map_file_url md5hex vd tv info
    ∧ generate_static_map_html md5hex
        (generate_static_map_html md5hex fs vd tv info).2 vd tv info =
      ((generate_static_map_html md5hex fs vd tv info).1,
       (generate_static_map_html md5hex fs vd tv info).2)
    ∧ generate_static_map_html md5hex
        (map_file_name md5hex vd tv info :: fs) vd tv info =
      (map_file_url md5hex vd tv info, map_file_name md5hex vd tv info :: fs) := by
  by_cases h : map_file_name md5hex vd tv info ∈ fs
  · simp [generate_static_map_html, h]
  · simp [generate_static_map_html, h]

/-- C9: `generate_safe_cache_key` is not injective in its key parts:
because the parts are joined with `"_"` before hashing, the distinct
tuples `('A_B', 'C')` and `('A', 'B_C')` — and likewise `(None, '2024')`
and `('None', '2024')`, as produced by `get_cached_candidatos` with a
missing versus literal-"None" party — hash the same raw string and yield
the identical cache key, for every digest function. -/
theorem cache_key_not_injective (md5hex : String → String) :
    generate_safe_cache_key md5hex "candidatos" [.s "A_B", .s "C"] =
      generate_safe_cache_key md5hex "candidatos" [.s "A", .s "B_C"]
    ∧ ([PyArg.s "A_B", PyArg.s "C"] ≠ [PyArg.s "A", PyArg.s "B_C"])
    ∧ generate_safe_cache_key md5hex "candidatos" [.pynone, .s "2024"] =
      generate_safe_cache_key md5hex "candidatos" [.s "None", .s "2024"]
    ∧ (PyArg.pynone ≠ PyArg.s "None") := by
  refine ⟨?_, by decide, ?_, by decide⟩
  · unfold generate_safe_cache_key
    have h : String.intercalate "_" ([PyArg.s "A_B", PyArg.s "C"].map py_str) =
        String.intercalate "_" ([PyArg.s "A", PyArg.s "B_C"].map py_str) := by decide
    rw [h]
  · unfold generate_safe_cache_key
    have h : String.intercalate "_" ([PyArg.pynone, PyArg.s "2024"].map py_str) =
        String.intercalate "_" ([PyArg.s "None", PyArg.s "2024"].map py_str) := by decide
    rw [h]
